import Mathlib

/-!
Shallow embedding of the codestat-agent task orchestration engine
(src/task/models.py, src/task/container.py, src/task/scheduler.py).

Wall-clock time is modelled as a natural-number clock (seconds); every
operation that reads the wall clock in the source receives the current
instant as an explicit argument.  Docker-runtime observations are passed
in explicitly: a pure `DockerState` models the container map for the
creation/start path, and a `Runtime` record of response functions models
the poll/result/stop calls made by one reconciliation pass.  Exceptions
are modelled with `Except` / an explicit error component.
-/

namespace CodeStat

/-- Task execution status (models.py, class TaskStatus). -/
inductive TaskStatus where
  | pending
  | running
  | success
  | failed
  | timeout
deriving DecidableEq

/-- Whether a status is terminal, i.e. among SUCCESS, FAILED, TIMEOUT
(the tuple tested at scheduler.py line 124). -/
def isTerminalStatus : TaskStatus → Bool
  | .success => true
  | .failed => true
  | .timeout => true
  | _ => false

/-- CLOC execution configuration (models.py, class ClocConfig). -/
structure ClocConfig where
  exclude_ext : List String
  exclude_lang : List String
  include_ext : List String
  output_format : String
  use_gitignore : Bool
  timeout : Nat
deriving DecidableEq

/-- Field defaults of ClocConfig (models.py lines 22-27). -/
def defaultClocConfig : ClocConfig :=
  { exclude_ext := [], exclude_lang := [], include_ext := [],
    output_format := "json", use_gitignore := true, timeout := 600 }

/-- ClocConfig.to_cloc_args (models.py lines 29-50). -/
def to_cloc_args (c : ClocConfig) : List String :=
  (if c.exclude_ext ≠ [] then ["--exclude-ext", String.intercalate "," c.exclude_ext] else [])
  ++ (if c.exclude_lang ≠ [] then ["--exclude-lang", String.intercalate "," c.exclude_lang] else [])
  ++ (if c.include_ext ≠ [] then ["--include-ext", String.intercalate "," c.include_ext] else [])
  ++ (if c.output_format = "json" then ["--json"]
      else if c.output_format = "csv" then ["--csv"]
      else if c.output_format = "yaml" then ["--yaml"]
      else [])

/-- Parsed content of a result file: the JSON object is modelled as an
association list with opaque serialized values.  An empty list models the
empty JSON object, which is falsy in the Python truthiness test
`if result:` (scheduler.py line 158). -/
abbrev ResultData := List (String × String)

/-- Code statistics task (models.py, class StatTask).  Timestamps are
naturals; optional fields are `Option`. -/
structure StatTask where
  task_id : String
  repository_id : String
  repository_name : String
  repository_url : String
  branch : String
  commit_sha : String
  status : TaskStatus
  container_id : Option String
  cloc_config : ClocConfig
  created_at : Nat
  started_at : Option Nat
  finished_at : Option Nat
  error_message : Option String
  result : Option ResultData
deriving DecidableEq

/-- Whether a task's result field holds a non-empty payload (a populated
dict in the Python model). -/
def resultNonEmpty (t : StatTask) : Bool :=
  match t.result with
  | some d => !d.isEmpty
  | none => false

/-! Container Execution Backend (container.py). -/

/-- Environment variables fixed on a container at creation
(container.py lines 94-102). -/
structure EnvVars where
  repo_url : String
  repo_name : String
  branch : String
  commit_sha : String
  task_id : String
  cloc_args : String
  use_gitignore : String
deriving DecidableEq

/-- One Docker container as visible to this system: its runtime id, its
runtime status string, and the environment fixed at creation. -/
structure ContainerRec where
  id : String
  status : String
  env : EnvVars
deriving DecidableEq

/-- The runtime's container table, keyed by container name. -/
structure DockerState where
  containers : List (String × ContainerRec)
deriving DecidableEq

/-- Responses the Docker control API gives to the creation/start path:
the id a fresh container would get, and whether create / start raise an
APIError (carrying its detail message). -/
structure DockerEnv where
  freshId : String
  createErr : Option String
  startErr : Option String

/-- ContainerManager._get_container_name (container.py lines 51-53). -/
def get_container_name (repository_id : String) : String :=
  "codestat-" ++ repository_id

/-- ContainerManager.get_container (container.py lines 63-69): resolve a
container by name, None when absent. -/
def lookupContainer (ds : DockerState) (name : String) : Option ContainerRec :=
  (ds.containers.find? (fun p => p.1 = name)).map Prod.snd

/-- The environment dict built for a task at container creation
(container.py lines 94-102). -/
def taskEnv (t : StatTask) : EnvVars :=
  { repo_url := t.repository_url
    repo_name := t.repository_name
    branch := t.branch
    commit_sha := t.commit_sha
    task_id := t.task_id
    cloc_args := String.intercalate " " (to_cloc_args t.cloc_config)
    use_gitignore := if t.cloc_config.use_gitignore then "1" else "0" }

/-- ContainerManager.create_or_get_container (container.py lines 71-122):
an existing container for the repository is returned unchanged; otherwise
one is created with the task's environment, or the APIError is re-raised
as a RuntimeError.  The returned DockerState reflects the creation. -/
def create_or_get_container (ds : DockerState) (denv : DockerEnv) (task : StatTask) :
    Except String ContainerRec × DockerState :=
  match lookupContainer ds (get_container_name task.repository_id) with
  | some c => (.ok c, ds)
  | none =>
    match denv.createErr with
    | some d => (.error ("Failed to create container: " ++ d), ds)
    | none =>
      (.ok { id := denv.freshId, status := "created", env := taskEnv task },
       ⟨ds.containers ++ [(get_container_name task.repository_id,
          { id := denv.freshId, status := "created", env := taskEnv task })]⟩)

/-- Effect of Container.start on the runtime table: the named container
moves to runtime status running.  The environment is untouched. -/
def setContainerStatus (ds : DockerState) (name st : String) : DockerState :=
  ⟨ds.containers.map (fun p => if p.1 = name then (p.1, { p.2 with status := st }) else p)⟩

/-- ContainerManager.start_task (container.py lines 124-143): ensure the
container, start it when its runtime status is not running, return its
id; start failures re-raise as RuntimeError. -/
def start_task (ds : DockerState) (denv : DockerEnv) (task : StatTask) :
    Except String String × DockerState :=
  match create_or_get_container ds denv task with
  | (.error e, ds1) => (.error e, ds1)
  | (.ok c, ds1) =>
    if c.status ≠ "running" then
      match denv.startErr with
      | some d => (.error ("Failed to start container: " ++ d), ds1)
      | none => (.ok c.id, setContainerStatus ds1 (get_container_name task.repository_id) "running")
    else (.ok c.id, ds1)

/-! Task Orchestration Engine (scheduler.py). -/

/-- A Python exception escaping one task's reconciliation: either the
AttributeError raised because ContainerManager defines no
get_container_logs method (the scheduler still calls it at line 167), or
an uncaught container-runtime error. -/
inductive PyErr where
  | attributeError
  | runtimeError (msg : String)
deriving DecidableEq

/-- Responses the backend gives to the calls one reconciliation pass
makes: get_task_status keyed by container id (an error models an uncaught
runtime exception), get_task_result keyed by task id (total: absence and
parse failure are both None, container.py lines 161-180), and
stop_container keyed by repository id. -/
structure Runtime where
  statusOf : String → Except String String
  resultOf : String → Option ResultData
  stopOf : String → Except String Unit

/-- Normalized push event (webhook/models.py) as consumed by the
scheduler. -/
structure PushEvent where
  repository_id : String
  repository_name : String
  repository_url : String
  branch : String
  commit_sha : String
deriving DecidableEq

/-- Task id generation (scheduler.py line 59); the uuid4 fragment is an
explicit nonce argument. -/
def makeTaskId (e : PushEvent) (nonce : String) : String :=
  e.repository_id ++ "_" ++ (e.commit_sha.take 7) ++ "_" ++ nonce

/-- The PENDING task constructed by schedule_from_push_event
(scheduler.py lines 64-74). -/
def newTaskFromEvent (e : PushEvent) (cfg : ClocConfig) (nonce : String) (now : Nat) : StatTask :=
  { task_id := makeTaskId e nonce
    repository_id := e.repository_id
    repository_name := e.repository_name
    repository_url := e.repository_url
    branch := e.branch
    commit_sha := e.commit_sha
    status := .pending
    container_id := none
    cloc_config := cfg
    created_at := now
    started_at := none
    finished_at := none
    error_message := none
    result := none }

/-- Scheduler state: the in-memory registry (insertion-ordered, as a
Python dict), the per-repository configuration map, the default
configuration, and the Docker runtime table. -/
structure SchedulerState where
  tasks : List (String × StatTask)
  repository_configs : List (String × ClocConfig)
  default_cloc_config : ClocConfig
  docker : DockerState

/-- TaskScheduler.get_repository_config (scheduler.py lines 44-46). -/
def get_repository_config (s : SchedulerState) (repository_id : String) : ClocConfig :=
  ((s.repository_configs.find? (fun p => p.1 = repository_id)).map Prod.snd).getD
    s.default_cloc_config

/-- First half of TaskScheduler._execute_task (scheduler.py lines 88-89):
the task is marked RUNNING and started_at is set before the container
start is attempted.  This state is observable while the start call is
awaited in the thread pool. -/
def executeTaskPhase1 (now : Nat) (task : StatTask) : StatTask :=
  { task with status := .running, started_at := some now }

/-- TaskScheduler._execute_task (scheduler.py lines 84-103): mark
RUNNING, attempt the container start, record the container id on
success; on any exception mark FAILED with finished_at and the message. -/
def executeTask (ds : DockerState) (denv : DockerEnv) (now : Nat) (task : StatTask) :
    StatTask × DockerState :=
  match start_task ds denv (executeTaskPhase1 now task) with
  | (.ok cid, ds1) => ({ executeTaskPhase1 now task with container_id := some cid }, ds1)
  | (.error e, ds1) =>
    ({ executeTaskPhase1 now task with
         status := .failed, finished_at := some now, error_message := some e }, ds1)

/-- TaskScheduler.schedule_from_push_event (scheduler.py lines 48-82):
build the PENDING task, register it, execute it (the registry holds the
mutated object), return it. -/
def schedule_from_push_event (s : SchedulerState) (e : PushEvent) (nonce : String)
    (denv : DockerEnv) (now : Nat) : StatTask × SchedulerState :=
  ((executeTask s.docker denv now
      (newTaskFromEvent e (get_repository_config s e.repository_id) nonce now)).1,
   { s with
       tasks := s.tasks
         ++ [(makeTaskId e nonce,
              (executeTask s.docker denv now
                (newTaskFromEvent e (get_repository_config s e.repository_id) nonce now)).1)]
       docker := (executeTask s.docker denv now
         (newTaskFromEvent e (get_repository_config s e.repository_id) nonce now)).2 })

/-- Exited and not-found branches of one iteration of
TaskScheduler._check_running_tasks (scheduler.py lines 152-178), applied
to the status string the backend reported.  The call at line 167 to the
nonexistent ContainerManager.get_container_logs is modelled as raising
AttributeError after the FAILED fields set at lines 162-163; the common
finished_at assignment at line 172 is therefore never reached in that
branch. -/
def exitedCheck (rt : Runtime) (now : Nat) (task : StatTask) (st : String) :
    StatTask × Option PyErr :=
  if st = "exited" then
    match rt.resultOf task.task_id with
    | some r =>
      if !r.isEmpty then
        ({ task with status := .success, result := some r, finished_at := some now }, none)
      else
        ({ task with status := .failed,
                     error_message := some "No result file generated" },
         some PyErr.attributeError)
    | none =>
      ({ task with status := .failed,
                   error_message := some "No result file generated" },
       some PyErr.attributeError)
  else if st = "not_found" then
    ({ task with status := .failed, error_message := some "Container not found",
                 finished_at := some now }, none)
  else (task, none)

/-- Timeout branch of one iteration (scheduler.py lines 180-191): when the
elapsed running time exceeds the configured timeout, ask the backend to
stop the container (an uncaught runtime error there escapes before the
fields are set), then mark TIMEOUT with finished_at and the elapsed
duration in error_message. -/
def timeoutCheck (rt : Runtime) (now : Nat) (t1 : StatTask) :
    StatTask × Option PyErr :=
  match t1.started_at with
  | none => (t1, none)
  | some t0 =>
    if t1.cloc_config.timeout < now - t0 then
      match rt.stopOf t1.repository_id with
      | .error e => (t1, some (.runtimeError e))
      | .ok _ =>
        ({ t1 with status := .timeout, finished_at := some now,
                   error_message :=
                     some ("Task timeout after " ++ toString (now - t0) ++ "s") },
         none)
    else (t1, none)

/-- One iteration of the per-task body of
TaskScheduler._check_running_tasks (scheduler.py lines 143-191).
Returns the task as left by the iteration together with the exception,
if any, escaping it; the source has no per-task handler, so such an
exception aborts the whole pass while keeping the mutations already made
to this task. -/
def checkRunningTask (rt : Runtime) (now : Nat) (task : StatTask) :
    StatTask × Option PyErr :=
  if task.status ≠ .running then (task, none)
  else
    match task.container_id with
    | none => (task, none)
    | some cid =>
      match rt.statusOf cid with
      | .error e => (task, some (.runtimeError e))
      | .ok st =>
        match exitedCheck rt now task st with
        | (t1, some e) => (t1, some e)
        | (t1, none) => timeoutCheck rt now t1

/-- TaskScheduler._check_running_tasks (scheduler.py lines 141-191) over
the whole registry: tasks are visited in insertion order; the first
escaping exception aborts the pass, leaving the remaining tasks
untouched. -/
def check_running_tasks (rt : Runtime) (now : Nat) :
    List (String × StatTask) → List (String × StatTask) × Option PyErr
  | [] => ([], none)
  | (tid, t) :: rest =>
    match checkRunningTask rt now t with
    | (t1, none) =>
      let (rest1, e) := check_running_tasks rt now rest
      ((tid, t1) :: rest1, e)
    | (t1, some e) => ((tid, t1) :: rest, some e)

/-- Boolean filter selecting the eviction candidates of
TaskScheduler._cleanup_old_tasks (scheduler.py lines 122-126): terminal
status and finished_at present. -/
def terminalFinished (p : String × StatTask) : Bool :=
  isTerminalStatus p.2.status && p.2.finished_at.isSome

/-- Sort key of the eviction candidates: the finished_at instant
(scheduler.py line 132; every candidate has one). -/
def finKey (p : String × StatTask) : Nat :=
  p.2.finished_at.getD 0

/-- Comparison used to sort eviction candidates by finished_at. -/
def finLE (p q : String × StatTask) : Prop :=
  finKey p ≤ finKey q

instance : DecidableRel finLE := fun p q => Nat.decLe (finKey p) (finKey q)

instance : IsTotal (String × StatTask) finLE := ⟨fun p q => Nat.le_total (finKey p) (finKey q)⟩

instance : IsTrans (String × StatTask) finLE :=
  ⟨fun _ _ _ h1 h2 => Nat.le_trans h1 h2⟩

/-- The entries _cleanup_old_tasks deletes (scheduler.py lines 131-137):
the first (size − maxTasks) candidates in stable finished_at order.
Python sorts with the stable Timsort; the stable insertion sort has the
same graph on every input. -/
def evictionList (tasks : List (String × StatTask)) (maxTasks : Nat) :
    List (String × StatTask) :=
  (List.insertionSort finLE (tasks.filter terminalFinished)).take (tasks.length - maxTasks)

/-- TaskScheduler._cleanup_old_tasks (scheduler.py lines 116-139).  The
maxAgeHours parameter mirrors the max_age_hours parameter of the source,
which the body never reads. -/
def cleanup_old_tasks (tasks : List (String × StatTask)) (maxTasks maxAgeHours : Nat) :
    List (String × StatTask) :=
  if tasks.length ≤ maxTasks then tasks
  else
    if (tasks.filter terminalFinished).isEmpty then tasks
    else
      tasks.filter (fun p => p.1 ∉ (evictionList tasks maxTasks).map Prod.fst)

/-- One iteration of the body of TaskScheduler._monitor_tasks
(scheduler.py lines 107-112): the reconciliation pass, then — only when
it did not raise — the retention pass with its default arguments; any
escaping exception is caught here and the registry is left as the
aborted pass left it. -/
def monitorTick (rt : Runtime) (now : Nat) (tasks : List (String × StatTask)) :
    List (String × StatTask) :=
  match check_running_tasks rt now tasks with
  | (tasks1, some _) => tasks1
  | (tasks1, none) => cleanup_old_tasks tasks1 1000 24

/-! Concrete fixtures used by claim-level evaluations, counterexamples
and witnesses. -/

/-- A RUNNING task fixture with the given ids, start instant and
configuration. -/
def mkRunningTask (tid rid cid : String) (t0 : Nat) (cfg : ClocConfig) : StatTask :=
  { task_id := tid
    repository_id := rid
    repository_name := rid
    repository_url := "https://example.com/" ++ rid ++ ".git"
    branch := "main"
    commit_sha := "abc1234def5"
    status := .running
    container_id := some cid
    cloc_config := cfg
    created_at := t0
    started_at := some t0
    finished_at := none
    error_message := none
    result := none }

/-- A terminal SUCCESS task fixture finished at the given instant. -/
def mkDoneTask (tid rid : String) (fin : Nat) : StatTask :=
  { mkRunningTask tid rid ("cont-" ++ rid) 0 defaultClocConfig with
      status := .success, finished_at := some fin, result := some [("SUM", "ok")] }

/-- Runtime responses: every container reports exited, and no result
file exists for any task. -/
def rtExitedNoResult : Runtime :=
  { statusOf := fun _ => .ok "exited"
    resultOf := fun _ => none
    stopOf := fun _ => .ok () }

def resultC4 : ResultData := [("SUM", "code 120")]

/-- Runtime responses: every container reports exited, and a valid
non-empty result file exists. -/
def rtExitedResult : Runtime :=
  { statusOf := fun _ => .ok "exited"
    resultOf := fun _ => some resultC4
    stopOf := fun _ => .ok () }

def taskC1 : StatTask := mkRunningTask "r1_abc1234_t1" "r1" "cont1" 0 defaultClocConfig

def taskC2 : StatTask := mkRunningTask "r2_abc1234_t2" "r2" "cont2" 0 defaultClocConfig

def taskC3 : StatTask := mkRunningTask "r3_abc1234_t3" "r3" "cont3" 0 defaultClocConfig

def taskC4 : StatTask := mkRunningTask "r4_abc1234_t4" "r4" "cont4" 0 defaultClocConfig

def eventC5 : PushEvent :=
  { repository_id := "r5"
    repository_name := "org/r5"
    repository_url := "https://example.com/r5.git"
    branch := "main"
    commit_sha := "abcdef12345" }

/-- Scheduler state with an empty registry and an empty container
runtime. -/
def emptyState : SchedulerState :=
  { tasks := []
    repository_configs := []
    default_cloc_config := defaultClocConfig
    docker := ⟨[]⟩ }

def taskC6a : StatTask := mkRunningTask "r6a_abc1234_t" "r6a" "cont6a" 0 defaultClocConfig

def taskC6b : StatTask := mkRunningTask "r6b_abc1234_t" "r6b" "cont6b" 0 defaultClocConfig

/-- Runtime responses for the pass-abort scenario: polling the first
container raises an uncaught runtime error; the second container has
exited with a valid result. -/
def rtC6 : Runtime :=
  { statusOf := fun cid =>
      if cid = "cont6a" then .error "docker daemon unreachable" else .ok "exited"
    resultOf := fun _ => some [("SUM", "code 7")]
    stopOf := fun _ => .ok () }

def eventC7 : PushEvent :=
  { repository_id := "r7"
    repository_name := "org/r7"
    repository_url := "https://example.com/r7.git"
    branch := "main"
    commit_sha := "1234567abcd" }

/-- Registry fixture: one RUNNING task and two finished tasks, the older
one finished at 3 and the newer at 10. -/
def registryC8 : List (String × StatTask) :=
  [("a", mkRunningTask "a" "ra" "conta" 0 defaultClocConfig),
   ("b", mkDoneTask "b" "rb" 10),
   ("c", mkDoneTask "c" "rc" 3)]

/-- A terminal task finished at instant 0, i.e. arbitrarily older than
any retention age measured at a later clock. -/
def oldTask : StatTask := mkDoneTask "told" "rold" 0

def eventC10 : PushEvent :=
  { repository_id := "r10"
    repository_name := "org/r10"
    repository_url := "https://example.com/r10.git"
    branch := "main"
    commit_sha := "aaa1111bbb2" }

/-- The container created for the first task of repository r10; its
environment was fixed from that task at creation. -/
def containerC10 : ContainerRec :=
  { id := "d10"
    status := "exited"
    env := taskEnv (newTaskFromEvent eventC10 defaultClocConfig "n1" 0) }

def dockerC10 : DockerState := ⟨[("codestat-r10", containerC10)]⟩

/-- A later task for the same repository r10 at a different commit. -/
def taskC10b : StatTask :=
  executeTaskPhase1 5
    (newTaskFromEvent { eventC10 with commit_sha := "fff9999eee8" } defaultClocConfig "n2" 5)

/-! Theorems. -/

/-- Claim C1 (code bug): a RUNNING task whose elapsed time exceeds its
timeout is NOT classified TIMEOUT when the container also exited with no
readable result: the branch sets FAILED at line 162 and then the call to
the nonexistent ContainerManager.get_container_logs raises
AttributeError, aborting the iteration before the timeout branch at
lines 180-191 runs.  Evaluated here at a task started at 0, polled at
1000 with timeout 600: final status FAILED, never TIMEOUT, the pass
aborted. -/
theorem c1_missing_logs_preempts_timeout_classification :
    (checkRunningTask rtExitedNoResult 1000 taskC1).1.status = .failed
    ∧ (checkRunningTask rtExitedNoResult 1000 taskC1).1.status ≠ .timeout
    ∧ (checkRunningTask rtExitedNoResult 1000 taskC1).2 = some .attributeError
    ∧ taskC1.cloc_config.timeout < 1000 - (taskC1.started_at.getD 0) := by
  decide

/-- Claim C2 (code bug): a task moved to the terminal FAILED state by the
exited-without-result branch is left with finished_at unset, because the
AttributeError from the missing get_container_logs method aborts the
iteration before the finished_at assignment at scheduler.py line 172;
the task then stays FAILED without finished_at forever since only
RUNNING tasks are re-examined.  Evaluated at a task polled at instant 10,
well inside its timeout. -/
theorem c2_terminal_without_finished_at :
    isTerminalStatus (checkRunningTask rtExitedNoResult 10 taskC2).1.status = true
    ∧ (checkRunningTask rtExitedNoResult 10 taskC2).1.finished_at = none
    ∧ (checkRunningTask rtExitedNoResult 10 taskC2).2 = some .attributeError := by
  decide

/-- Claim C3 (code bug): the reconciliation pass's attachment of
container logs to error_message raises an exception to its caller:
ContainerManager defines no get_container_logs method, so the call the
scheduler makes at line 167 raises AttributeError, and no log text is
ever appended. -/
theorem c3_get_container_logs_call_raises :
    (checkRunningTask rtExitedNoResult 7 taskC3).2 = some PyErr.attributeError
    ∧ (checkRunningTask rtExitedNoResult 7 taskC3).1.error_message
        = some "No result file generated" := by
  decide

/-- Claim C4 (counterexample): a task whose container exited with a
valid non-empty result file in the same pass in which its timeout
elapsed is reclassified TIMEOUT at lines 188-190 while its result field,
populated at line 160, is never cleared — so result is non-empty with
status ≠ SUCCESS. -/
theorem c4_result_retained_on_timeout_cex :
    (checkRunningTask rtExitedResult 700 taskC4).1.status = .timeout
    ∧ (checkRunningTask rtExitedResult 700 taskC4).1.status ≠ .success
    ∧ resultNonEmpty (checkRunningTask rtExitedResult 700 taskC4).1 = true
    ∧ (checkRunningTask rtExitedResult 700 taskC4).1.result = some resultC4 := by
  decide

/-- Claim C5 (counterexample): when container creation fails during
schedule, the returned task is FAILED with container_ref unset and the
detail recorded, but the task DOES reach RUNNING in this path:
_execute_task sets status RUNNING and started_at at lines 88-89 before
the container start is attempted (executeTaskPhase1), a state observable
through the registry while the start call is awaited in the thread pool;
the returned FAILED task still carries started_at. -/
theorem c5_running_observed_in_failed_start_cex :
    (schedule_from_push_event emptyState eventC5 "nonce5"
        ⟨"cid5", some "memory limit exceeded", none⟩ 5).1.status = .failed
    ∧ (executeTaskPhase1 5 (newTaskFromEvent eventC5 defaultClocConfig "nonce5" 5)).status
        = .running
    ∧ (schedule_from_push_event emptyState eventC5 "nonce5"
        ⟨"cid5", some "memory limit exceeded", none⟩ 5).1.started_at = some 5 := by
  decide

/-- Claim C6 (counterexample): with two RUNNING tasks in the registry,
an uncaught runtime error while polling the first task's container
aborts the whole reconciliation pass: the second task is returned
untouched and still RUNNING, although reconciling it alone would have
classified it SUCCESS. -/
theorem c6_error_halts_pass_cex :
    check_running_tasks rtC6 10 [("t6a", taskC6a), ("t6b", taskC6b)]
      = ([("t6a", taskC6a), ("t6b", taskC6b)],
         some (.runtimeError "docker daemon unreachable"))
    ∧ taskC6b.status = .running
    ∧ (checkRunningTask rtC6 10 taskC6b).1.status = .success := by
  decide

/-- Claim C6 (amended): errors during one task's reconciliation are not
caught per-task: the first escaping exception aborts the pass, leaving
every later task in that pass untouched; the exception is caught one
level up in _monitor_tasks, whose iteration returns the registry as the
aborted pass left it (and skips the retention pass for that tick). -/
theorem c6_error_aborts_rest_caught_at_loop (rt : Runtime) (now : Nat) (tid : String)
    (t : StatTask) (rest : List (String × StatTask)) (e : PyErr)
    (herr : (checkRunningTask rt now t).2 = some e) :
    check_running_tasks rt now ((tid, t) :: rest)
      = ((tid, (checkRunningTask rt now t).1) :: rest, some e)
    ∧ monitorTick rt now ((tid, t) :: rest)
      = (tid, (checkRunningTask rt now t).1) :: rest := by
  rcases hx : checkRunningTask rt now t with ⟨t1, e2⟩
  rw [hx] at herr
  simp only at herr
  subst herr
  simp only [hx]
  have h1 : check_running_tasks rt now ((tid, t) :: rest) = ((tid, t1) :: rest, some e) := by
    simp only [check_running_tasks, hx]
  exact ⟨h1, by simp only [monitorTick, h1]⟩

/-- Witness for the amended claim C6 at a concrete runtime and registry. -/
theorem c6_error_aborts_rest_caught_at_loop_witness :
    monitorTick rtC6 10 [("t6a", taskC6a), ("t6c", taskC6b)]
      = [("t6a", (checkRunningTask rtC6 10 taskC6a).1), ("t6c", taskC6b)] :=
  (c6_error_aborts_rest_caught_at_loop rtC6 10 "t6a" taskC6a [("t6c", taskC6b)]
    (.runtimeError "docker daemon unreachable") (by decide)).2

/-- Claim C9 (counterexample): a terminal task finished at instant 0 —
older than any configured age at any later clock — is retained by the
retention pass whenever the registry size is within the maximum:
_cleanup_old_tasks returns at line 118 before consulting anything else,
and its max_age_hours parameter is never read. -/
theorem c9_no_age_based_eviction_cex :
    cleanup_old_tasks [("told", oldTask)] 1000 24 = [("told", oldTask)]
    ∧ isTerminalStatus oldTask.status = true
    ∧ oldTask.finished_at = some 0 := by
  decide

/-- Claim C9 (amended): retention is count-based only.  The
max_age_hours parameter of _cleanup_old_tasks is accepted but never
read, so eviction is independent of it, and no task — however old — is
evicted while the registry size is at most the configured maximum. -/
theorem c9_count_based_only (tasks : List (String × StatTask)) (maxTasks a1 a2 : Nat)
    (hle : tasks.length ≤ maxTasks) :
    cleanup_old_tasks tasks maxTasks a1 = tasks
    ∧ cleanup_old_tasks tasks maxTasks a1 = cleanup_old_tasks tasks maxTasks a2 := by
  exact ⟨by simp [cleanup_old_tasks, hle], rfl⟩

/-- Auxiliary: appending two strings is left-cancellative. -/
theorem string_append_left_cancel {a b c : String} (h : a ++ b = a ++ c) : b = c := by
  have hd := congrArg String.data h
  simp only [String.data_append] at hd
  exact String.ext (List.append_cancel_left hd)

/-- Auxiliary: task ids generated for the same event from distinct
uuid fragments are distinct. -/
theorem makeTaskId_ne (e : PushEvent) {n1 n2 : String} (h : n1 ≠ n2) :
    makeTaskId e n1 ≠ makeTaskId e n2 := by
  intro hid
  unfold makeTaskId at hid
  exact h (string_append_left_cancel hid)

/-- Auxiliary: resolving the updated name after setContainerStatus gives
the stored record with only its status field replaced. -/
theorem lookupContainer_set (ds : DockerState) (n st : String) :
    lookupContainer (setContainerStatus ds n st) n
      = (lookupContainer ds n).map (fun c => { c with status := st }) := by
  obtain ⟨l⟩ := ds
  simp only [lookupContainer, setContainerStatus]
  induction l with
  | nil => rfl
  | cons p rest ih =>
    simp only [List.map_cons]
    by_cases hp : p.1 = n
    · rw [if_pos hp]
      rw [List.find?_cons_of_pos _ (by simp [hp]), List.find?_cons_of_pos _ (by simp [hp])]
      rfl
    · rw [if_neg hp]
      rw [List.find?_cons_of_neg _ (by simp [hp]), List.find?_cons_of_neg _ (by simp [hp])]
      exact ih

/-- Auxiliary: resolving a freshly appended name when it was absent
before gives the appended record. -/
theorem lookupContainer_append_of_none (ds : DockerState) (n : String) (c : ContainerRec)
    (h : lookupContainer ds n = none) :
    lookupContainer ⟨ds.containers ++ [(n, c)]⟩ n = some c := by
  obtain ⟨l⟩ := ds
  simp only [lookupContainer] at h ⊢
  have hf : l.find? (fun p => decide (p.1 = n)) = none := by
    cases hfind : l.find? (fun p => decide (p.1 = n)) with
    | none => rfl
    | some p => rw [hfind] at h; simp at h
  rw [List.find?_append, hf]
  simp [List.find?]

/-- Auxiliary: start_task on a repository with no container creates one
carrying the task's environment, starts it, and returns the fresh id
(container.py lines 104-143, fresh path, no runtime failures). -/
theorem start_task_fresh (ds : DockerState) (fid : String) (task : StatTask)
    (h : lookupContainer ds (get_container_name task.repository_id) = none) :
    start_task ds ⟨fid, none, none⟩ task
      = (.ok fid,
         setContainerStatus
           ⟨ds.containers ++ [(get_container_name task.repository_id,
              ⟨fid, "created", taskEnv task⟩)]⟩
           (get_container_name task.repository_id) "running") := by
  unfold start_task create_or_get_container
  rw [h]
  rfl

/-- Auxiliary: start_task on a repository whose container exists and is
already running returns its id and leaves the runtime unchanged
(container.py lines 134-143, reuse path). -/
theorem start_task_running_existing (ds : DockerState) (denv : DockerEnv) (task : StatTask)
    (c : ContainerRec)
    (h : lookupContainer ds (get_container_name task.repository_id) = some c)
    (hrun : c.status = "running") :
    start_task ds denv task = (.ok c.id, ds) := by
  unfold start_task create_or_get_container
  rw [h]
  simp [hrun]

/-- Claim C10 (confirmed): when a container already exists for the
task's repository, create_or_get_container returns it unchanged and
start_task leaves its creation-time environment variables in place: the
environment dict is built only in the creation path (container.py lines
94-109), so the new task's commit SHA, task id and configuration are
never applied to the reused container. -/
theorem c10_reused_container_env_frame (ds : DockerState) (denv : DockerEnv)
    (task : StatTask) (c : ContainerRec)
    (hex : lookupContainer ds (get_container_name task.repository_id) = some c) :
    create_or_get_container ds denv task = (.ok c, ds)
    ∧ (lookupContainer (start_task ds denv task).2
         (get_container_name task.repository_id)).map ContainerRec.env = some c.env := by
  have hco : create_or_get_container ds denv task = (.ok c, ds) := by
    unfold create_or_get_container
    rw [hex]
  refine ⟨hco, ?_⟩
  unfold start_task
  rw [hco]
  by_cases hrun : c.status = "running"
  · simp [hrun, hex]
  · cases hse : denv.startErr with
    | some d => simp [hrun, hse, hex]
    | none =>
      simp only [hrun, hse, if_neg, ne_eq, not_false_iff, if_pos]
      rw [lookupContainer_set, hex]
      rfl

/-- Witness for claim C10: the container created for the first r10 task
keeps that task's environment when start_task runs for a second r10 task
at a different commit. -/
theorem c10_reused_container_env_frame_witness :
    create_or_get_container dockerC10 ⟨"dX", none, none⟩ taskC10b = (.ok containerC10, dockerC10)
    ∧ (lookupContainer (start_task dockerC10 ⟨"dX", none, none⟩ taskC10b).2
         (get_container_name taskC10b.repository_id)).map ContainerRec.env
        = some containerC10.env :=
  c10_reused_container_env_frame dockerC10 ⟨"dX", none, none⟩ taskC10b containerC10 (by decide)

/-- Auxiliary: when the container must be created and the runtime
rejects the creation, start_task surfaces the re-raised RuntimeError
carrying the creation detail and leaves the runtime table unchanged
(container.py lines 104-122, failure path). -/
theorem start_task_create_error (ds : DockerState) (fid d : String) (se : Option String)
    (task : StatTask)
    (h : lookupContainer ds (get_container_name task.repository_id) = none) :
    start_task ds ⟨fid, some d, se⟩ task
      = (.error ("Failed to create container: " ++ d), ds) := by
  unfold start_task create_or_get_container
  rw [h]

/-- Auxiliary: when the container is created but the runtime rejects the
start, start_task surfaces the re-raised RuntimeError carrying the start
detail; the created container remains in the runtime table
(container.py lines 136-141, failure path). -/
theorem start_task_start_error (ds : DockerState) (fid d : String) (task : StatTask)
    (h : lookupContainer ds (get_container_name task.repository_id) = none) :
    start_task ds ⟨fid, none, some d⟩ task
      = (.error ("Failed to start container: " ++ d),
         ⟨ds.containers ++ [(get_container_name task.repository_id,
            ⟨fid, "created", taskEnv task⟩)]⟩) := by
  unfold start_task create_or_get_container
  rw [h]
  rfl

/-- Claim C5 (amended): when container creation or start fails during
schedule — any failure of the materialize-and-start step — the call
still returns, within the same call, a task with status FAILED,
container_ref unset, the raised failure detail in error_message and
finished_at set; however the task transiently reaches RUNNING first:
status RUNNING and started_at are assigned before the start attempt, so
a RUNNING state is observable mid-call (and started_at remains set on
the returned FAILED task). -/
theorem c5_failed_schedule_reports_failure (s : SchedulerState) (e : PushEvent)
    (nonce detail : String) (now : Nat) (denv : DockerEnv) (ds2 : DockerState)
    (hfail : start_task s.docker denv
      (executeTaskPhase1 now (newTaskFromEvent e (get_repository_config s e.repository_id)
        nonce now)) = (.error detail, ds2)) :
    (schedule_from_push_event s e nonce denv now).1.status = .failed
    ∧ (schedule_from_push_event s e nonce denv now).1.container_id = none
    ∧ (schedule_from_push_event s e nonce denv now).1.error_message = some detail
    ∧ (schedule_from_push_event s e nonce denv now).1.finished_at = some now
    ∧ (schedule_from_push_event s e nonce denv now).1.started_at = some now
    ∧ (executeTaskPhase1 now
        (newTaskFromEvent e (get_repository_config s e.repository_id) nonce now)).status
        = .running := by
  simp only [schedule_from_push_event, executeTask, hfail]
  simp [executeTaskPhase1, newTaskFromEvent]

/-- Witness for the amended claim C5 at a concrete failing start (the
container is created, its start is rejected) and at a concrete failing
creation. -/
theorem c5_failed_schedule_reports_failure_witness :
    (schedule_from_push_event emptyState eventC5 "w5"
        ⟨"cid5", none, some "oom killed"⟩ 9).1.status = .failed
    ∧ (schedule_from_push_event emptyState eventC5 "w5"
        ⟨"cid5", none, some "oom killed"⟩ 9).1.error_message
        = some ("Failed to start container: " ++ "oom killed")
    ∧ (schedule_from_push_event emptyState eventC5 "w5"
        ⟨"cid5", none, some "oom killed"⟩ 9).1.finished_at = some 9
    ∧ (schedule_from_push_event emptyState eventC5 "w6"
        ⟨"cid6", some "disk quota exceeded", none⟩ 9).1.status = .failed
    ∧ (schedule_from_push_event emptyState eventC5 "w6"
        ⟨"cid6", some "disk quota exceeded", none⟩ 9).1.error_message
        = some ("Failed to create container: " ++ "disk quota exceeded")
    ∧ (schedule_from_push_event emptyState eventC5 "w6"
        ⟨"cid6", some "disk quota exceeded", none⟩ 9).1.container_id = none := by
  have h1 := c5_failed_schedule_reports_failure emptyState eventC5 "w5" _ 9
    ⟨"cid5", none, some "oom killed"⟩ _
    (start_task_start_error emptyState.docker "cid5" "oom killed"
      (executeTaskPhase1 9 (newTaskFromEvent eventC5
        (get_repository_config emptyState eventC5.repository_id) "w5" 9)) (by decide))
  have h2 := c5_failed_schedule_reports_failure emptyState eventC5 "w6" _ 9
    ⟨"cid6", some "disk quota exceeded", none⟩ _
    (start_task_create_error emptyState.docker "cid6" "disk quota exceeded" none
      (executeTaskPhase1 9 (newTaskFromEvent eventC5
        (get_repository_config emptyState eventC5.repository_id) "w6" 9)) (by decide))
  exact ⟨h1.1, h1.2.2.1, h1.2.2.2.1, h2.1, h2.2.2.1, h2.2.1⟩

/-- Auxiliary: every scheduled task carries the id generated from the
event and the uuid fragment, whichever way execution went. -/
theorem schedule_task_id (s : SchedulerState) (e : PushEvent) (nonce : String)
    (denv : DockerEnv) (now : Nat) :
    (schedule_from_push_event s e nonce denv now).1.task_id = makeTaskId e nonce := by
  unfold schedule_from_push_event executeTask
  rcases hst : start_task s.docker denv (executeTaskPhase1 now (newTaskFromEvent e
    (get_repository_config s e.repository_id) nonce now)) with ⟨r, ds2⟩
  cases r with
  | ok cid => rfl
  | error msg => rfl

/-- Auxiliary: when the container start succeeds, schedule returns the
RUNNING task carrying the container id, registers it, and installs the
runtime state the start produced. -/
theorem schedule_of_start_ok (s : SchedulerState) (e : PushEvent) (nonce : String)
    (denv : DockerEnv) (now : Nat) (cid : String) (ds2 : DockerState)
    (h : start_task s.docker denv (executeTaskPhase1 now (newTaskFromEvent e
      (get_repository_config s e.repository_id) nonce now)) = (.ok cid, ds2)) :
    schedule_from_push_event s e nonce denv now
      = ({ executeTaskPhase1 now (newTaskFromEvent e (get_repository_config s e.repository_id)
             nonce now) with container_id := some cid },
         { s with
             tasks := s.tasks ++ [(makeTaskId e nonce,
               { executeTaskPhase1 now (newTaskFromEvent e
                   (get_repository_config s e.repository_id) nonce now)
                 with container_id := some cid })]
             docker := ds2 }) := by
  unfold schedule_from_push_event executeTask
  rw [h]

/-- Claim C7 (confirmed): scheduling two push events for the same
repository before its container is removed yields two distinct task ids
(the uuid fragments differ) that share the same container reference:
the container name is derived from repository_id alone, the second
create_or_get_container finds the existing running container and returns
it unchanged, and the runtime table is not modified by the second
schedule. -/
theorem c7_single_flight_per_repository (s : SchedulerState) (e : PushEvent)
    (n1 n2 id1 id2 : String) (now1 now2 : Nat)
    (hnone : lookupContainer s.docker (get_container_name e.repository_id) = none)
    (hne : n1 ≠ n2) :
    (schedule_from_push_event s e n1 ⟨id1, none, none⟩ now1).1.task_id
      ≠ (schedule_from_push_event (schedule_from_push_event s e n1 ⟨id1, none, none⟩ now1).2
          e n2 ⟨id2, none, none⟩ now2).1.task_id
    ∧ (schedule_from_push_event s e n1 ⟨id1, none, none⟩ now1).1.container_id = some id1
    ∧ (schedule_from_push_event (schedule_from_push_event s e n1 ⟨id1, none, none⟩ now1).2
        e n2 ⟨id2, none, none⟩ now2).1.container_id = some id1
    ∧ (schedule_from_push_event (schedule_from_push_event s e n1 ⟨id1, none, none⟩ now1).2
        e n2 ⟨id2, none, none⟩ now2).2.docker
      = (schedule_from_push_event s e n1 ⟨id1, none, none⟩ now1).2.docker := by
  have hst1 := start_task_fresh s.docker id1
    (executeTaskPhase1 now1 (newTaskFromEvent e (get_repository_config s e.repository_id)
      n1 now1)) hnone
  have hname : get_container_name ((executeTaskPhase1 now1 (newTaskFromEvent e
      (get_repository_config s e.repository_id) n1 now1)).repository_id)
      = get_container_name e.repository_id := rfl
  rw [hname] at hst1
  have hsch1 := schedule_of_start_ok s e n1 ⟨id1, none, none⟩ now1 id1 _ hst1
  have hdock1 : (schedule_from_push_event s e n1 ⟨id1, none, none⟩ now1).2.docker
      = setContainerStatus
          ⟨s.docker.containers ++ [(get_container_name e.repository_id,
             ⟨id1, "created",
              taskEnv (executeTaskPhase1 now1
                (newTaskFromEvent e (get_repository_config s e.repository_id) n1 now1))⟩)]⟩
          (get_container_name e.repository_id) "running" := by
    rw [hsch1]
  have hlk2 : lookupContainer
      (schedule_from_push_event s e n1 ⟨id1, none, none⟩ now1).2.docker
      (get_container_name e.repository_id)
      = some ⟨id1, "running",
          taskEnv (executeTaskPhase1 now1
            (newTaskFromEvent e (get_repository_config s e.repository_id) n1 now1))⟩ := by
    rw [hdock1, lookupContainer_set, lookupContainer_append_of_none s.docker _ _ hnone]
    rfl
  have hst2 := start_task_running_existing
    (schedule_from_push_event s e n1 ⟨id1, none, none⟩ now1).2.docker ⟨id2, none, none⟩
    (executeTaskPhase1 now2 (newTaskFromEvent e
      (get_repository_config (schedule_from_push_event s e n1 ⟨id1, none, none⟩ now1).2
        e.repository_id) n2 now2))
    ⟨id1, "running",
     taskEnv (executeTaskPhase1 now1
       (newTaskFromEvent e (get_repository_config s e.repository_id) n1 now1))⟩
    hlk2 rfl
  have hsch2 := schedule_of_start_ok
    (schedule_from_push_event s e n1 ⟨id1, none, none⟩ now1).2 e n2 ⟨id2, none, none⟩ now2
    _ _ hst2
  refine ⟨?_, ?_, ?_, ?_⟩
  · rw [schedule_task_id, schedule_task_id]
    exact makeTaskId_ne e hne
  · rw [hsch1]
  · rw [hsch2]
  · rw [hsch2]

/-- Witness for claim C7 at a concrete empty initial state. -/
theorem c7_single_flight_per_repository_witness :
    (schedule_from_push_event emptyState eventC7 "u1" ⟨"d1", none, none⟩ 1).1.task_id
      ≠ (schedule_from_push_event
          (schedule_from_push_event emptyState eventC7 "u1" ⟨"d1", none, none⟩ 1).2
          eventC7 "u2" ⟨"d2", none, none⟩ 2).1.task_id
    ∧ (schedule_from_push_event emptyState eventC7 "u1" ⟨"d1", none, none⟩ 1).1.container_id
        = some "d1"
    ∧ (schedule_from_push_event
        (schedule_from_push_event emptyState eventC7 "u1" ⟨"d1", none, none⟩ 1).2
        eventC7 "u2" ⟨"d2", none, none⟩ 2).1.container_id = some "d1" := by
  have h := c7_single_flight_per_repository emptyState eventC7 "u1" "u2" "d1" "d2" 1 2
    (by decide) (by decide)
  exact ⟨h.1, h.2.1, h.2.2.1⟩

/-- Witness for the amended claim C9 at a concrete one-task registry. -/
theorem c9_count_based_only_witness :
    cleanup_old_tasks [("told2", oldTask)] 1000 24 = [("told2", oldTask)]
    ∧ cleanup_old_tasks [("told2", oldTask)] 1000 24
        = cleanup_old_tasks [("told2", oldTask)] 1000 9999 :=
  c9_count_based_only [("told2", oldTask)] 1000 24 9999 (by decide)

/-- Auxiliary: the timeout branch never touches the result field. -/
theorem timeoutCheck_result (rt : Runtime) (now : Nat) (t1 : StatTask) :
    (timeoutCheck rt now t1).1.result = t1.result := by
  unfold timeoutCheck
  split
  · rfl
  · split
    · split
      · rfl
      · rfl
    · rfl

/-- Auxiliary: the timeout branch leaves the status unchanged or sets it
to TIMEOUT. -/
theorem timeoutCheck_status (rt : Runtime) (now : Nat) (t1 : StatTask) :
    (timeoutCheck rt now t1).1.status = t1.status
    ∨ (timeoutCheck rt now t1).1.status = .timeout := by
  unfold timeoutCheck
  split
  · exact Or.inl rfl
  · split
    · split
      · exact Or.inl rfl
      · exact Or.inr rfl
    · exact Or.inl rfl

/-- Auxiliary: the exited branch either completes having classified the
task SUCCESS with the non-empty result it read, or leaves the result
field unchanged (FAILED, not-found and skip branches). -/
theorem exitedCheck_spec (rt : Runtime) (now : Nat) (task : StatTask) (st : String) :
    ((exitedCheck rt now task st).2 = none
      ∧ (exitedCheck rt now task st).1.status = .success
      ∧ ∃ r, (exitedCheck rt now task st).1.result = some r ∧ r.isEmpty = false)
    ∨ (exitedCheck rt now task st).1.result = task.result := by
  unfold exitedCheck
  split
  · split
    · rename_i r hres
      split
      · rename_i hne
        exact Or.inl ⟨rfl, rfl, r, rfl, by simpa using hne⟩
      · exact Or.inr rfl
    · exact Or.inr rfl
  · split
    · exact Or.inr rfl
    · exact Or.inr rfl

/-- Auxiliary: resultNonEmpty depends only on the result field. -/
theorem resultNonEmpty_congr {t s : StatTask} (h : t.result = s.result) :
    resultNonEmpty t = resultNonEmpty s := by
  unfold resultNonEmpty
  rw [h]

/-- Claim C4 (amended): across one reconciliation iteration, a non-empty
result implies status SUCCESS OR TIMEOUT — not SUCCESS alone: the
timeout branch overrides the status set by the exited branch without
clearing the result field, so a task reclassified TIMEOUT in the same
pass in which a valid result file was read retains the populated
result. -/
theorem c4_result_only_success_or_timeout (rt : Runtime) (now : Nat) (task : StatTask)
    (hinv : resultNonEmpty task = true → task.status = .success ∨ task.status = .timeout) :
    (resultNonEmpty (checkRunningTask rt now task).1 = true →
      (checkRunningTask rt now task).1.status = .success
      ∨ (checkRunningTask rt now task).1.status = .timeout)
    ∧ (∀ cid r t0,
        task.status = .running → task.container_id = some cid →
        rt.statusOf cid = .ok "exited" → rt.resultOf task.task_id = some r →
        r.isEmpty = false → task.started_at = some t0 →
        task.cloc_config.timeout < now - t0 → rt.stopOf task.repository_id = .ok () →
        (checkRunningTask rt now task).1.status = .timeout
        ∧ (checkRunningTask rt now task).1.result = some r) := by
  constructor
  · by_cases hrun : task.status = .running
    · simp only [checkRunningTask, hrun, ne_eq, not_true_eq_false, if_false]
      cases hcid : task.container_id with
      | none => exact hinv
      | some cid =>
        dsimp only
        cases hstat : rt.statusOf cid with
        | error msg => exact hinv
        | ok st =>
          dsimp only
          rcases hec : exitedCheck rt now task st with ⟨t1, e2⟩
          have hspec := exitedCheck_spec rt now task st
          rw [hec] at hspec
          simp only at hspec
          cases e2 with
          | some e =>
            dsimp only
            intro h1
            have hres : t1.result = task.result := by
              rcases hspec with ⟨habs, _⟩ | hsame
              · exact absurd habs (by simp)
              · exact hsame
            have h2 : resultNonEmpty task = true := by
              rw [← resultNonEmpty_congr hres]
              exact h1
            rcases hinv h2 with h | h <;> rw [hrun] at h <;> exact TaskStatus.noConfusion h
          | none =>
            dsimp only
            intro h1
            rcases hspec with ⟨_, hsucc, r, hr, hrne⟩ | hsame
            · rcases timeoutCheck_status rt now t1 with h | h
              · exact Or.inl (h.trans hsucc)
              · exact Or.inr h
            · have h2 : resultNonEmpty task = true := by
                have hres2 : (timeoutCheck rt now t1).1.result = task.result := by
                  rw [timeoutCheck_result]
                  exact hsame
                rw [← resultNonEmpty_congr hres2]
                exact h1
              rcases hinv h2 with h | h <;> rw [hrun] at h <;> exact TaskStatus.noConfusion h
    · have heq : checkRunningTask rt now task = (task, none) := by
        simp [checkRunningTask, hrun]
      rw [heq]
      exact hinv
  · intro cid r t0 hrun hcid hstat hres hne hstart htmo hstop
    simp only [checkRunningTask, exitedCheck, timeoutCheck, hrun, hcid, hstat, hres, hne,
      hstart, hstop, htmo, ne_eq, not_true_eq_false, if_false, Bool.not_false, if_true]
    simp [htmo]

/-- Witness for the amended claim C4: the exited-with-result iteration
that also timed out yields TIMEOUT with the result retained. -/
theorem c4_result_only_success_or_timeout_witness :
    (checkRunningTask rtExitedResult 700 taskC4).1.status = .timeout
    ∧ (checkRunningTask rtExitedResult 700 taskC4).1.result = some resultC4 :=
  (c4_result_only_success_or_timeout rtExitedResult 700 taskC4 (by decide)).2
    "cont4" resultC4 0 rfl rfl rfl rfl rfl rfl (by decide) rfl

/-- Auxiliary: filtering a list by a predicate and by its negation
splits its length. -/
theorem length_filter_split {α : Type} (l : List α) (f : α → Bool) :
    (l.filter f).length + (l.filter (fun a => !(f a))).length = l.length := by
  induction l with
  | nil => rfl
  | cons a t ih =>
    cases h : f a <;> simp [List.filter_cons, h] <;> omega

/-- Auxiliary: in a list of entries with pairwise-distinct keys, the
entries whose key lies in a duplicate-free list of present keys are
exactly as many as those keys. -/
theorem length_filter_key_mem (tasks : List (String × StatTask)) (ids : List String)
    (hids : ids.Nodup) (hkeys : (tasks.map Prod.fst).Nodup)
    (hsub : ∀ x ∈ ids, x ∈ tasks.map Prod.fst) :
    (tasks.filter (fun p => p.1 ∈ ids)).length = ids.length := by
  induction tasks generalizing ids with
  | nil =>
    cases ids with
    | nil => rfl
    | cons x xs => exact absurd (hsub x (by simp)) (by simp)
  | cons kt rest ih =>
    rw [List.map_cons, List.nodup_cons] at hkeys
    by_cases hmem : kt.1 ∈ ids
    · rw [List.filter_cons_of_pos (by simpa using hmem)]
      have hsub2 : ∀ x ∈ ids.erase kt.1, x ∈ rest.map Prod.fst := by
        intro x hx
        have hxne : x ≠ kt.1 := ((List.Nodup.mem_erase_iff hids).mp hx).1
        have hxids : x ∈ ids := ((List.Nodup.mem_erase_iff hids).mp hx).2
        rcases (by simpa using hsub x hxids : x = kt.1 ∨ x ∈ rest.map Prod.fst) with h | h
        · exact absurd h hxne
        · exact h
      have hfe : rest.filter (fun p => p.1 ∈ ids)
          = rest.filter (fun p => p.1 ∈ ids.erase kt.1) := by
        apply List.filter_congr
        intro p hp
        have hpne : p.1 ≠ kt.1 := by
          intro he
          exact hkeys.1 (he ▸ List.mem_map_of_mem Prod.fst hp)
        simp only [decide_eq_true_eq, decide_eq_decide]
        exact (List.mem_erase_of_ne hpne).symm
      rw [List.length_cons, hfe, ih (ids.erase kt.1) (hids.erase _) hkeys.2 hsub2,
        List.length_erase_add_one hmem]
    · rw [List.filter_cons_of_neg (by simpa using hmem)]
      have hsub2 : ∀ x ∈ ids, x ∈ rest.map Prod.fst := by
        intro x hx
        rcases (by simpa using hsub x hx : x = kt.1 ∨ x ∈ rest.map Prod.fst) with h | h
        · exact absurd (h ▸ hx) hmem
        · exact h
      exact ih ids hids hkeys.2 hsub2

/-- Auxiliary: members of the eviction list are eviction candidates:
terminal with finished_at present. -/
theorem mem_evictionList_mem_filter {tasks : List (String × StatTask)} {maxTasks : Nat}
    {p : String × StatTask} (hp : p ∈ evictionList tasks maxTasks) :
    p ∈ tasks.filter terminalFinished := by
  have h1 : p ∈ List.insertionSort finLE (tasks.filter terminalFinished) :=
    (List.take_sublist _ _).subset hp
  exact (List.perm_insertionSort finLE (tasks.filter terminalFinished)).subset h1

/-- Auxiliary: the retention pass is the identity when the registry is
within the maximum. -/
theorem cleanup_of_le (tasks : List (String × StatTask)) (maxTasks maxAgeHours : Nat)
    (h : tasks.length ≤ maxTasks) :
    cleanup_old_tasks tasks maxTasks maxAgeHours = tasks := by
  simp [cleanup_old_tasks, h]

/-- Auxiliary: over the maximum and with candidates available, the
retention pass deletes exactly the keys of the eviction list. -/
theorem cleanup_of_lt (tasks : List (String × StatTask)) (maxTasks maxAgeHours : Nat)
    (hlt : maxTasks < tasks.length)
    (hne : (tasks.filter terminalFinished).isEmpty = false) :
    cleanup_old_tasks tasks maxTasks maxAgeHours
      = tasks.filter (fun p => p.1 ∉ (evictionList tasks maxTasks).map Prod.fst) := by
  rw [cleanup_old_tasks, if_neg (by omega), if_neg (by simp [hne])]

/-- Claim C8 (confirmed): the retention pass evicts nothing while the
registry size is within the maximum; it removes only terminal tasks; the
eviction list is sorted by finished_at ascending, consists of terminal
tasks, and every evicted entry finished no later than every retained
candidate; and when at least (size − max) terminal candidates exist the
registry shrinks exactly back to the maximum. -/
theorem c8_retention_policy (tasks : List (String × StatTask)) (maxTasks maxAgeHours : Nat) :
    (tasks.length ≤ maxTasks → cleanup_old_tasks tasks maxTasks maxAgeHours = tasks)
    ∧ ((tasks.map Prod.fst).Nodup →
        ∀ p ∈ tasks, p ∉ cleanup_old_tasks tasks maxTasks maxAgeHours →
          isTerminalStatus p.2.status = true)
    ∧ List.Sorted finLE (evictionList tasks maxTasks)
    ∧ (∀ p ∈ evictionList tasks maxTasks, isTerminalStatus p.2.status = true)
    ∧ (∀ p ∈ evictionList tasks maxTasks, ∀ q ∈ tasks.filter terminalFinished,
        q ∉ evictionList tasks maxTasks → finLE p q)
    ∧ ((tasks.map Prod.fst).Nodup → maxTasks < tasks.length →
        tasks.length - maxTasks ≤ (tasks.filter terminalFinished).length →
        (cleanup_old_tasks tasks maxTasks maxAgeHours).length = maxTasks) := by
  refine ⟨cleanup_of_le tasks maxTasks maxAgeHours, ?_, ?_, ?_, ?_, ?_⟩
  · intro hnodup p hp hnp
    by_cases hle : tasks.length ≤ maxTasks
    · exact absurd (cleanup_of_le tasks maxTasks maxAgeHours hle ▸ hnp) (by exact fun h => h hp)
    · by_cases hemp : (tasks.filter terminalFinished).isEmpty = true
      · rw [cleanup_old_tasks, if_neg hle, if_pos hemp] at hnp
        exact absurd hp hnp
      · rw [cleanup_of_lt tasks maxTasks maxAgeHours (by omega)
          (by simpa using hemp)] at hnp
        have hkey : p.1 ∈ (evictionList tasks maxTasks).map Prod.fst := by
          by_contra hno
          exact hnp (List.mem_filter.mpr ⟨hp, by simpa using hno⟩)
        rcases List.mem_map.mp hkey with ⟨q, hq, hq1⟩
        have hqf := mem_evictionList_mem_filter hq
        have hqt : q ∈ tasks := List.mem_of_mem_filter hqf
        have hpq : q = p := List.inj_on_of_nodup_map hnodup hqt hp hq1
        have := List.of_mem_filter hqf
        rw [hpq] at this
        exact (Bool.and_eq_true _ _).mp (by simpa [terminalFinished] using this) |>.1
  · exact (List.sorted_insertionSort finLE _).sublist (List.take_sublist _ _)
  · intro p hp
    have := List.of_mem_filter (mem_evictionList_mem_filter hp)
    exact (Bool.and_eq_true _ _).mp (by simpa [terminalFinished] using this) |>.1
  · intro p hp q hqf hqn
    have hsorted := List.sorted_insertionSort finLE (tasks.filter terminalFinished)
    have hqs : q ∈ List.insertionSort finLE (tasks.filter terminalFinished) :=
      (List.perm_insertionSort finLE (tasks.filter terminalFinished)).symm.subset hqf
    have hsplit := List.take_append_drop (tasks.length - maxTasks)
      (List.insertionSort finLE (tasks.filter terminalFinished))
    have hqd : q ∈ (List.insertionSort finLE (tasks.filter terminalFinished)).drop
        (tasks.length - maxTasks) := by
      rcases (List.mem_append.mp (hsplit ▸ hqs)) with h | h
      · exact absurd h hqn
      · exact h
    have hpw : List.Pairwise finLE
        ((List.insertionSort finLE (tasks.filter terminalFinished)).take
            (tasks.length - maxTasks)
          ++ (List.insertionSort finLE (tasks.filter terminalFinished)).drop
            (tasks.length - maxTasks)) := by
      rw [hsplit]
      exact hsorted
    exact (List.pairwise_append.mp hpw).2.2 p hp q hqd
  · intro hnodup hlt hen
    have hsl : (List.insertionSort finLE (tasks.filter terminalFinished)).length
        = (tasks.filter terminalFinished).length :=
      (List.perm_insertionSort finLE _).length_eq
    have hemp : (tasks.filter terminalFinished).isEmpty = false := by
      have : 0 < (tasks.filter terminalFinished).length := by omega
      cases hh : tasks.filter terminalFinished with
      | nil => rw [hh] at this; simp at this
      | cons a t => simp
    rw [cleanup_of_lt tasks maxTasks maxAgeHours hlt hemp]
    have hkeysn : ((evictionList tasks maxTasks).map Prod.fst).Nodup := by
      have h1 : ((tasks.filter terminalFinished).map Prod.fst).Nodup :=
        hnodup.sublist ((List.filter_sublist tasks).map Prod.fst)
      have h2 : ((List.insertionSort finLE (tasks.filter terminalFinished)).map
          Prod.fst).Nodup :=
        ((List.perm_insertionSort finLE (tasks.filter terminalFinished)).map
          Prod.fst).nodup_iff.mpr h1
      exact h2.sublist ((List.take_sublist _ _).map Prod.fst)
    have hlen : ((evictionList tasks maxTasks).map Prod.fst).length
        = tasks.length - maxTasks := by
      rw [List.length_map]
      unfold evictionList
      rw [List.length_take, hsl]
      omega
    have hsubk : ∀ x ∈ (evictionList tasks maxTasks).map Prod.fst, x ∈ tasks.map Prod.fst := by
      intro x hx
      rcases List.mem_map.mp hx with ⟨q, hq, hq1⟩
      exact hq1 ▸ List.mem_map_of_mem Prod.fst
        (List.mem_of_mem_filter (mem_evictionList_mem_filter hq))
    have hcount := length_filter_key_mem tasks ((evictionList tasks maxTasks).map Prod.fst)
      hkeysn hnodup hsubk
    have hsplit2 := length_filter_split tasks
      (fun p => decide (p.1 ∈ (evictionList tasks maxTasks).map Prod.fst))
    have hfid : (tasks.filter
        (fun p => p.1 ∉ (evictionList tasks maxTasks).map Prod.fst))
        = tasks.filter
          (fun p => !(decide (p.1 ∈ (evictionList tasks maxTasks).map Prod.fst))) := by
      apply List.filter_congr
      intro p hp
      simp [decide_not]
    rw [hfid]
    omega

/-- Witness for claim C8 on a concrete three-task registry: within the
maximum nothing is evicted; with maximum 1 the two finished tasks are
evicted and the registry is back at size 1. -/
theorem c8_retention_policy_witness :
    cleanup_old_tasks registryC8 5 24 = registryC8
    ∧ (cleanup_old_tasks registryC8 1 24).length = 1 := by
  have h5 := c8_retention_policy registryC8 5 24
  have h1 := c8_retention_policy registryC8 1 24
  exact ⟨h5.1 (by decide), h1.2.2.2.2.2 (by decide) (by decide) (by decide)⟩

end CodeStat
